import Mathlib

/-!
Shallow embedding of the Study-planner core (src/src/App.jsx, the variant the
claims cite; the five sibling variants agree on every function modelled here).

Conventions of the embedding:
* JS numbers holding integral values (minutes, seconds, millisecond
  timestamps, colour indices, round counters) are `Int`; counts are `Nat`.
* `null`/`undefined` fields are `Option`; JS string falsiness ("" is falsy)
  is modelled explicitly where the source relies on it.
* `Math.round x = ⌊x + 1/2⌋` (round half toward +∞), so for integers d,
  `Math.round (d / 1000)` is `⌊(d + 500) / 1000⌋`, i.e. floor division of
  `d + 500` by `1000`.
* Browser/library calls (`Date.now`, `crypto.randomUUID`, `JSON.parse`,
  `fetch` outcomes, `localStorage` contents) are passed in as explicit
  arguments, since they are the external environment of the pure logic.
-/

namespace StudyPlanner

/-- JS `Math.round ((d : ms) / 1000)` for an integer number of milliseconds:
`Math.round x = ⌊x + 1/2⌋`, hence `⌊(d + 500) / 1000⌋` (floor division,
which for the positive divisor 1000 is `Int.fdiv`). -/
def jsRoundMs (d : Int) : Int := Int.fdiv (d + 500) 1000

-- ===== Status system (src/src/App.jsx lines 35, 65-68) =====

/-- Source: `const STATUSES = ["Not Started", "In Progress", "Done"]`. -/
def STATUSES : List String := ["Not Started", "In Progress", "Done"]

/-- JS `Array.prototype.indexOf`: first index of `s`, `-1` when absent. -/
def jsIndexOf : List String → String → Int
  | [], _ => -1
  | x :: xs, s =>
    if x = s then 0
    else
      let r := jsIndexOf xs s
      if r = -1 then -1 else r + 1

/-- Source `nextStatus(current)`:
`STATUSES[(STATUSES.indexOf(current) + 1 + STATUSES.length) % STATUSES.length]`.
The index is in `{-1,0,1,2}`, so `idx + 1 + 3` is nonnegative and `%` agrees
with JS remainder. -/
def nextStatus (current : String) : String :=
  let idx := jsIndexOf STATUSES current
  STATUSES.getD ((idx + 1 + 3) % 3).toNat ""

-- ===== clamp and duration-setting controls (lines 23, 1335-1363) =====

/-- Source: `const clamp = (n, a, b) => Math.max(a, Math.min(b, n))`. -/
def clamp (n a b : Int) : Int := max a (min b n)

/-- The `SettingRow` minus button: `onChange(clamp(value - 1, 1, 90))`. -/
def settingDecrement (value : Int) : Int := clamp (value - 1) 1 90

/-- The `SettingRow` plus button: `onChange(clamp(value + 1, 1, 90))`. -/
def settingIncrement (value : Int) : Int := clamp (value + 1) 1 90

/-- The `SettingRow` number input: `onChange(clamp(Number(e.target.value) || 1, 1, 90))`.
`raw = none` models `Number(...)` being `NaN` (falsy, like `0`), so `|| 1`
yields `1` for `none` and `0`. -/
def settingDirectInput (raw : Option Int) : Int :=
  clamp (match raw with | some n => if n = 0 then 1 else n | none => 1) 1 90

-- ===== Pomodoro timer (lines 261-278, 376-416, 577-606) =====

/-- Timer mode: `focus | short | long`. -/
inductive Mode where
  | focus
  | short
  | long
deriving DecidableEq, Repr

/-- The pomodoro state object produced by `defaultPomoState()` and mutated by
the timer actions. `targetTs` is `none` when the JS field is `null`. -/
structure PomoState where
  mode : Mode
  isRunning : Bool
  focusMin : Int
  shortMin : Int
  longMin : Int
  secondsLeft : Int
  rounds : Int
  targetTs : Option Int
deriving DecidableEq, Repr

/-- Source `durationForMode(state, mode)`: `shortMin*60` / `longMin*60` for breaks,
else `focusMin*60`. -/
def durationForMode (s : PomoState) (m : Mode) : Int :=
  match m with
  | .short => s.shortMin * 60
  | .long => s.longMin * 60
  | .focus => s.focusMin * 60

/-- Source `defaultPomoState()`. -/
def defaultPomoState : PomoState :=
  { mode := .focus, isRunning := false, focusMin := 25, shortMin := 5,
    longMin := 15, secondsLeft := 25 * 60, rounds := 0, targetTs := none }

/-- Source `startPomo()` at wall-clock instant `now` (`Date.now()`):
`{ ...prev, isRunning: true, targetTs: now + prev.secondsLeft * 1000 }`.
Note the source has no already-running guard. -/
def startPomo (s : PomoState) (now : Int) : PomoState :=
  { s with isRunning := true, targetTs := some (now + s.secondsLeft * 1000) }

/-- Source `pausePomo()`: `{ ...prev, isRunning: false, targetTs: null }`. -/
def pausePomo (s : PomoState) : PomoState :=
  { s with isRunning := false, targetTs := none }

/-- Source `resetPomo()`: `{ ...prev, isRunning: false,
secondsLeft: durationForMode(prev, prev.mode), targetTs: null }`. -/
def resetPomo (s : PomoState) : PomoState :=
  { s with
    isRunning := false, secondsLeft := durationForMode s s.mode,
    targetTs := none }

/-- The three `updatePomoSetting` keys used by the settings UI. -/
inductive PomoField where
  | focusMin
  | shortMin
  | longMin
deriving DecidableEq, Repr

/-- The spread-update `{ ...prev, [key]: val }` of `updatePomoSetting`. -/
def setPomoField (f : PomoField) (v : Int) (s : PomoState) : PomoState :=
  match f with
  | .focusMin => { s with focusMin := v }
  | .shortMin => { s with shortMin := v }
  | .longMin => { s with longMin := v }

/-- Read back the field `updatePomoSetting` writes. -/
def getPomoField (f : PomoField) (s : PomoState) : Int :=
  match f with
  | .focusMin => s.focusMin
  | .shortMin => s.shortMin
  | .longMin => s.longMin

/-- Source `updatePomoSetting(key, val)`:
`next = { ...prev, [key]: val }; if (!next.isRunning) next.secondsLeft =
durationForMode(next, next.mode); return next`. -/
def updatePomoSetting (f : PomoField) (v : Int) (s : PomoState) : PomoState :=
  let next := setPomoField f v s
  if next.isRunning then next
  else { next with secondsLeft := durationForMode next next.mode }

/-- The body of the `setInterval` tick callback (lines 387-410), evaluated at
wall-clock instant `now`:
* the guard `if (!prev.isRunning || !prev.targetTs) return prev` — note JS
  treats a `targetTs` of `0` as falsy, hence the explicit `ts = 0` case;
* `left = Math.max(0, Math.round((prev.targetTs - now) / 1000))`;
* on `left <= 0` auto-advance: from focus, `rounds+1` and go to `long` every
  4th round else `short`; from a break, back to `focus`; `isRunning = false`,
  `targetTs = null`, `secondsLeft = durationForMode(prev, nextMode)`;
* otherwise `{ ...prev, secondsLeft: left }`. -/
def tick (s : PomoState) (now : Int) : PomoState :=
  if !s.isRunning then s
  else
    match s.targetTs with
    | none => s
    | some ts =>
      if ts = 0 then s
      else
        let left := max 0 (jsRoundMs (ts - now))
        if left ≤ 0 then
          let base : PomoState :=
            { s with isRunning := false, secondsLeft := 0, targetTs := none }
          match s.mode with
          | .focus =>
            let nextRounds := s.rounds + 1
            let goLong := Int.tmod nextRounds 4 = 0
            let nextMode := if goLong then Mode.long else Mode.short
            { base with
              mode := nextMode,
              secondsLeft := durationForMode s nextMode, rounds := nextRounds }
          | _ =>
            { base with
              mode := .focus,
              secondsLeft := durationForMode s Mode.focus }
        else { s with secondsLeft := left }

/-- The mode the tick auto-advance switches to (read off the two branches of
the `left <= 0` case of `tick`). -/
def tickSuccessor (s : PomoState) : Mode :=
  match s.mode with
  | .focus => if Int.tmod (s.rounds + 1) 4 = 0 then Mode.long else Mode.short
  | _ => .focus

-- ===== Items and tasks (lines 483-535) =====

/-- A task row: `{ id, date, topic, status }`. -/
structure Task where
  id : String
  date : String
  topic : String
  status : String
deriving DecidableEq, Repr

/-- An item: `{ id, type, name, colorIdx, dueDate, tasks }`. -/
structure Item where
  id : String
  type : String
  name : String
  colorIdx : Int
  dueDate : String
  tasks : List Task
deriving DecidableEq, Repr

/-- Source `addTask(itemId)`: appends `{ id: crypto.randomUUID(), date: today,
topic: "New task", status: "Not Started" }` to the matching item's task list.
`today` and the fresh uuid are environment inputs. -/
def addTask (today uuid itemId : String) (items : List Item) : List Item :=
  let task : Task :=
    { id := uuid, date := today, topic := "New task", status := "Not Started" }
  items.map fun m =>
    if m.id = itemId then { m with tasks := m.tasks ++ [task] } else m

/-- Source `removeTask(itemId, taskId)`: filters the matching item's tasks by
`t.id !== taskId`. -/
def removeTask (itemId taskId : String) (items : List Item) : List Item :=
  items.map fun m =>
    if m.id = itemId then
      { m with tasks := m.tasks.filter fun t => t.id != taskId }
    else m

/-- Source `setTaskStatus(itemId, taskId, next)`: rewrites the matching task's
status to `nextSt`. -/
def setTaskStatus (itemId taskId nextSt : String) (items : List Item) :
    List Item :=
  items.map fun m =>
    if m.id = itemId then
      { m with tasks := m.tasks.map fun t =>
          if t.id = taskId then { t with status := nextSt } else t }
    else m

/-- Source `cycleTaskStatus(itemId, taskId)`: advances the matching task's status by
`nextStatus`. -/
def cycleTaskStatus (itemId taskId : String) (items : List Item) : List Item :=
  items.map fun m =>
    if m.id = itemId then
      { m with tasks := m.tasks.map fun t =>
          if t.id = taskId then { t with status := nextStatus t.status } else t }
    else m

/-- Number of tasks of `m` with `t.status === "Done"`. -/
def doneCount (m : Item) : Nat :=
  (m.tasks.filter fun t => t.status == "Done").length

/-- Source `progressFor(m)`: `0` when there are no tasks, else
`Math.round((done / total) * 100)`.  For `0 ≤ done ≤ total` the JS value
`⌊100·done/total + 1/2⌋` equals the natural-number floor division
`(200·done + total) / (2·total)`. -/
def progressFor (m : Item) : Nat :=
  let total := m.tasks.length
  if total = 0 then 0
  else (200 * doneCount m + total) / (2 * total)

/-- Rounding on ℚ exactly as JS `Math.round`: `⌊q + 1/2⌋`.  Used only on the
specification side of claims, to compare with the integer computation. -/
def jsRoundQ (q : ℚ) : ℤ := ⌊q + 1 / 2⌋

-- ===== Default items and the persistence adapter (lines 102-142, 307-350) =====

/-- Source `DEFAULT_ITEMS()`: two exams, one project, one daily list.  `fresh k` is
the k-th `crypto.randomUUID()` call, `d off` is `fmtYMD(today + off days)`. -/
def defaultItems (fresh : Nat → String) (d : Int → String) : List Item :=
  [ { id := fresh 0, type := "exam", name := "BGS", colorIdx := 0,
      dueDate := d 21, tasks := [] },
    { id := fresh 1, type := "exam", name := "Econs", colorIdx := 1,
      dueDate := d 28, tasks := [] },
    { id := fresh 2, type := "project", name := "Omni Iteration", colorIdx := 2,
      dueDate := d 14, tasks := [] },
    { id := fresh 3, type := "daily", name := "Daily To-Dos", colorIdx := 3,
      dueDate := d 0, tasks := [] } ]

/-- Truthiness of a JS string-or-undefined: `""` and `undefined` are falsy. -/
def jsTruthyStr (o : Option String) : Option String :=
  match o with
  | some s => if s = "" then none else some s
  | none => none

/-- JS `a || b` on string-or-undefined values, `none` when both are falsy. -/
def jsOrStr (a b : Option String) : Option String :=
  match jsTruthyStr a with
  | some s => some s
  | none => jsTruthyStr b

/-- An item-like object from the server: fields may be absent, and the
legacy `examDate` name is tolerated. -/
structure RawItem where
  id : String
  type : Option String
  name : String
  colorIdx : Int
  dueDate : Option String
  examDate : Option String
  tasks : Option (List Task)
deriving DecidableEq, Repr

/-- The per-element normalization of the remote `load` success branch:
`type: x.type || "exam"`, `dueDate: x.dueDate || x.examDate || fmtYMD(new
Date())`, `tasks: x.tasks || []`. -/
def normalizeRaw (today : String) (x : RawItem) : Item :=
  { id := x.id, type := (jsTruthyStr x.type).getD "exam", name := x.name,
    colorIdx := x.colorIdx,
    dueDate := (jsOrStr x.dueDate x.examDate).getD today,
    tasks := x.tasks.getD [] }

/-- One observed outcome of the `fetch` in `api`:
either the request itself rejected (network error, message `msg`), or a
response arrived with `res.ok`, `res.status`, whether the content type was
JSON, the JSON body's `error` and `message` fields (absent when not present
or when the body was not an object), and the body as an item array when
`Array.isArray(data)` holds. -/
inductive ApiOutcome where
  | netError (msg : String)
  | resp (ok : Bool) (status : Nat) (isJson : Bool)
      (errField msgField : Option String) (arr : Option (List RawItem))
deriving DecidableEq, Repr

/-- The fallback message `Request failed (status)` built by `api`. -/
def requestFailedMsg (status : Nat) : String :=
  "Request failed (" ++ toString status ++ ")"

/-- The message of the `Error` thrown by `api` on `!res.ok`:
`(data && (data.error || data.message)) || "Request failed (status)"`,
and the message of the rejection itself on a network error. -/
def apiErrMsg : ApiOutcome → String
  | .netError m => m
  | .resp _ st isJson errF msgF _ =>
    (if isJson then jsOrStr errF msgF else none).getD (requestFailedMsg st)

/-- Source `api(path)` as a function of the fetch outcome: `Except.error` carries the
thrown `Error`'s message, `Except.ok` the parsed data (`some arr` when the
body was a JSON array, `none` when `data` was `null` or not an array). -/
def apiResult : ApiOutcome → Except String (Option (List RawItem))
  | .netError m => .error m
  | .resp ok st isJson errF msgF arr =>
    if ok then .ok (if isJson then arr else none)
    else .error (apiErrMsg (.resp ok st isJson errF msgF arr))

/-- The remote branch of `load()` (lines 314-338), as the pair
(items set, sync status set).  The try branch normalizes an array body and
reports "Synced", falls back to `DEFAULT_ITEMS()` on a non-array body; the
catch branch sets the default items and `` `Sync error: ${e.message}` ``.
The function is total: api failures never escape as exceptions. -/
def loadRemote (fresh : Nat → String) (d : Int → String) (today : String)
    (o : ApiOutcome) : List Item × String :=
  match apiResult o with
  | .ok (some arr) => (arr.map (normalizeRaw today), "Synced")
  | .ok none => (defaultItems fresh d, "Synced")
  | .error m => (defaultItems fresh d, "Sync error: " ++ m)

/-- Whether the HTTP request failed (network error or non-2xx response). -/
def apiFails : ApiOutcome → Bool
  | .netError _ => true
  | .resp ok _ _ _ _ _ => !ok

/-- The local branch of `load()` (lines 341-343):
`saved = localStorage.getItem(itemsKey(user)); if (!saved)
setItems(DEFAULT_ITEMS()); else setItems(JSON.parse(saved))`.
`stored` is the stored string (`none` when the key is absent), `parse` is
`JSON.parse` (`none` when it would throw).  The `JSON.parse` call is NOT
wrapped in try/catch, so a parse failure escapes `load` as an exception,
modelled by `Except.error`. -/
def loadLocal (stored : Option String) (parse : String → Option (List Item))
    (fresh : Nat → String) (d : Int → String) : Except String (List Item) :=
  match stored with
  | none => .ok (defaultItems fresh d)
  | some s =>
    if s = "" then .ok (defaultItems fresh d)
    else
      match parse s with
      | some items => .ok items
      | none => .error "JSON.parse threw"

-- ===== Theorems =====

/-- C3: for every task status s in {NotStarted, InProgress, Done}, the
status-cycling step applied three times returns s, and a single application
advances along the fixed cycle
Not Started → In Progress → Done → Not Started. -/
theorem nextStatus_cycle (s : String) (h : s ∈ STATUSES) :
    nextStatus (nextStatus (nextStatus s)) = s ∧
    nextStatus "Not Started" = "In Progress" ∧
    nextStatus "In Progress" = "Done" ∧
    nextStatus "Done" = "Not Started" := by
  refine ⟨?_, rfl, rfl, rfl⟩
  simp only [STATUSES, List.mem_cons, List.mem_singleton, List.not_mem_nil,
    or_false] at h
  rcases h with rfl | rfl | rfl <;> rfl

/-- Witness for C3 at the concrete status "In Progress". -/
theorem nextStatus_cycle_witness :
    nextStatus (nextStatus (nextStatus "In Progress")) = "In Progress" :=
  (nextStatus_cycle "In Progress" (by decide)).1

/-- C4: reset() produces a state with isRunning = false, targetTimestamp =
null, secondsRemaining = durationForMode(currentMode), leaving mode and the
configured durations unchanged, for every prior state (running or paused). -/
theorem resetPomo_spec (s : PomoState) :
    (resetPomo s).isRunning = false ∧
    (resetPomo s).targetTs = none ∧
    (resetPomo s).secondsLeft = durationForMode s s.mode ∧
    (resetPomo s).mode = s.mode ∧
    (resetPomo s).focusMin = s.focusMin ∧
    (resetPomo s).shortMin = s.shortMin ∧
    (resetPomo s).longMin = s.longMin :=
  ⟨rfl, rfl, rfl, rfl, rfl, rfl, rfl⟩

/-- A concrete running timer state (targetTs anchored at 100000 ms). -/
def runningExample : PomoState :=
  { mode := .focus, isRunning := true, focusMin := 25, shortMin := 5,
    longMin := 15, secondsLeft := 10, rounds := 0, targetTs := some 100000 }

/-- C6 counterexample: startPomo invoked on an already-running state is not a
no-op — at the running state `runningExample` and now = 500000 it re-anchors
targetTs to 500000 + 10·1000 = 510000 ≠ 100000, so the result differs from
the input state. -/
theorem startPomo_running_not_noop :
    runningExample.isRunning = true ∧
    startPomo runningExample 500000 ≠ runningExample := by
  exact ⟨rfl, by decide⟩

/-- C6 (amended): startPomo always sets isRunning = true and re-anchors
targetTimestamp = now + secondsRemaining·1000 — also when invoked on an
already-running state (there is no no-op guard); everything else is
unchanged.  From an idle state this is exactly the claimed start behavior. -/
theorem startPomo_spec (s : PomoState) (now : Int) :
    (startPomo s now).isRunning = true ∧
    (startPomo s now).targetTs = some (now + s.secondsLeft * 1000) ∧
    (startPomo s now).secondsLeft = s.secondsLeft ∧
    (startPomo s now).mode = s.mode ∧
    (startPomo s now).rounds = s.rounds ∧
    (startPomo s now).focusMin = s.focusMin ∧
    (startPomo s now).shortMin = s.shortMin ∧
    (startPomo s now).longMin = s.longMin :=
  ⟨rfl, rfl, rfl, rfl, rfl, rfl, rfl, rfl⟩

/-- The field written by updatePomoSetting reads back as the written value. -/
theorem getPomoField_updatePomoSetting (f : PomoField) (w : Int)
    (s : PomoState) : getPomoField f (updatePomoSetting f w s) = w := by
  cases f <;>
    simp only [updatePomoSetting, setPomoField, getPomoField] <;>
    split <;> rfl

/-- C5: updateSetting(field, minutes) always stores the new configured
duration; when the timer is not running it recomputes secondsRemaining to
durationForMode of the active mode under the new setting; when it is running
it leaves secondsRemaining and the anchored targetTimestamp unchanged. -/
theorem updatePomoSetting_spec (s : PomoState) (f : PomoField) (v : Int) :
    getPomoField f (updatePomoSetting f v s) = v ∧
    (updatePomoSetting f v s).mode = s.mode ∧
    (updatePomoSetting f v s).isRunning = s.isRunning ∧
    (s.isRunning = false →
      (updatePomoSetting f v s).secondsLeft =
        durationForMode (setPomoField f v s) s.mode) ∧
    (s.isRunning = true →
      (updatePomoSetting f v s).secondsLeft = s.secondsLeft ∧
      (updatePomoSetting f v s).targetTs = s.targetTs) := by
  obtain ⟨mo, run, fm, sm, lm, sl, rd, tt⟩ := s
  refine ⟨getPomoField_updatePomoSetting f v _, ?_, ?_, ?_, ?_⟩ <;>
    cases run <;> cases f <;>
    simp [updatePomoSetting, setPomoField, durationForMode]

/-- Witness for C5: with the paused default state, setting focus minutes to
30 stores 30 and immediately recomputes secondsRemaining; with the running
state `runningExample`, setting focus minutes to 30 stores 30 but leaves
secondsRemaining and targetTs untouched. -/
theorem updatePomoSetting_spec_witness :
    getPomoField PomoField.focusMin
      (updatePomoSetting PomoField.focusMin 30 defaultPomoState) = 30 ∧
    (updatePomoSetting PomoField.focusMin 30 defaultPomoState).secondsLeft =
      durationForMode (setPomoField PomoField.focusMin 30 defaultPomoState)
        defaultPomoState.mode ∧
    (updatePomoSetting PomoField.focusMin 30 runningExample).secondsLeft =
      runningExample.secondsLeft ∧
    (updatePomoSetting PomoField.focusMin 30 runningExample).targetTs =
      runningExample.targetTs :=
  ⟨(updatePomoSetting_spec defaultPomoState PomoField.focusMin 30).1,
   (updatePomoSetting_spec defaultPomoState PomoField.focusMin 30).2.2.2.1 rfl,
   ((updatePomoSetting_spec runningExample PomoField.focusMin 30).2.2.2.2 rfl).1,
   ((updatePomoSetting_spec runningExample PomoField.focusMin 30).2.2.2.2 rfl).2⟩

/-- C9: every value delivered through a duration-setting control (decrement,
increment, or direct numeric entry) and stored by updatePomoSetting lies in
[1, 90]. -/
theorem settingControls_clamped (s : PomoState) (f : PomoField) (v : Int)
    (raw : Option Int) :
    (1 ≤ getPomoField f (updatePomoSetting f (settingDecrement v) s) ∧
      getPomoField f (updatePomoSetting f (settingDecrement v) s) ≤ 90) ∧
    (1 ≤ getPomoField f (updatePomoSetting f (settingIncrement v) s) ∧
      getPomoField f (updatePomoSetting f (settingIncrement v) s) ≤ 90) ∧
    (1 ≤ getPomoField f (updatePomoSetting f (settingDirectInput raw) s) ∧
      getPomoField f (updatePomoSetting f (settingDirectInput raw) s) ≤ 90) := by
  have hb : ∀ x : Int, 1 ≤ clamp x 1 90 ∧ clamp x 1 90 ≤ 90 := by
    intro x
    unfold clamp
    omega
  rw [getPomoField_updatePomoSetting, getPomoField_updatePomoSetting,
    getPomoField_updatePomoSetting]
  exact ⟨hb _, hb _, hb _⟩

/-- Ticking a running, anchored timer whose remaining time computes to 0
performs the auto-advance of the tick callback. -/
theorem tick_advance_eq (s : PomoState) (ts now : Int)
    (hrun : s.isRunning = true) (hts : s.targetTs = some ts) (hne : ts ≠ 0)
    (hz : jsRoundMs (ts - now) ≤ 0) :
    tick s now =
      { s with
        mode := tickSuccessor s, isRunning := false, targetTs := none,
        secondsLeft := durationForMode s (tickSuccessor s),
        rounds := if s.mode = Mode.focus then s.rounds + 1 else s.rounds } := by
  obtain ⟨mo, run, fm, sm, lm, sl, rd, tt⟩ := s
  simp only at hrun hts
  subst hrun
  subst hts
  have hmax : max 0 (jsRoundMs (ts - now)) = 0 := max_eq_left hz
  cases mo <;> simp [tick, tickSuccessor, hne, hmax, durationForMode]

/-- C1: for every running timer state whose remaining time computes to 0
(in particular whenever the tick happens at or after the target instant),
tick switches mode to the successor mode, increments the round counter
exactly when the completed period was focus, sets isRunning = false and
targetTimestamp = null, and sets secondsRemaining to durationForMode of the
new mode; moreover, starting the timer and advancing wall-clock time by
exactly durationForMode(mode) seconds before ticking produces exactly this
transition (timestamp-anchored countdown). -/
theorem tick_auto_advance :
    (∀ (s : PomoState) (ts now : Int),
      s.isRunning = true → s.targetTs = some ts → ts ≠ 0 →
      jsRoundMs (ts - now) ≤ 0 →
      tick s now =
        { s with
          mode := tickSuccessor s, isRunning := false, targetTs := none,
          secondsLeft := durationForMode s (tickSuccessor s),
          rounds := if s.mode = Mode.focus then s.rounds + 1 else s.rounds }) ∧
    (∀ (p : PomoState) (n : Int),
      0 < n → 0 ≤ p.secondsLeft →
      p.secondsLeft = durationForMode p p.mode →
      tick (startPomo p n) (n + durationForMode p p.mode * 1000) =
        { p with
          mode := tickSuccessor p, isRunning := false, targetTs := none,
          secondsLeft := durationForMode p (tickSuccessor p),
          rounds := if p.mode = Mode.focus then p.rounds + 1 else p.rounds }) := by
  constructor
  · exact tick_advance_eq
  · intro p n hn hsl hdur
    have hne : n + p.secondsLeft * 1000 ≠ 0 := by omega
    have hz : jsRoundMs
        ((n + p.secondsLeft * 1000) - (n + durationForMode p p.mode * 1000)) ≤
        0 := by
      rw [← hdur,
        show (n + p.secondsLeft * 1000) - (n + p.secondsLeft * 1000) = 0 by
          ring]
      decide
    have hadv := tick_advance_eq (startPomo p n) (n + p.secondsLeft * 1000)
      (n + durationForMode p p.mode * 1000) rfl rfl hne hz
    rw [hadv]
    obtain ⟨mo, run, fm, sm, lm, sl, rd, tt⟩ := p
    rfl

/-- Witness for C1: the running state `runningExample` ticked at
now = 500000 (well past its 100000 target) advances focus → short with the
round counter going 0 → 1; and the paused default state, started at
now = 1000 and ticked exactly 25·60 seconds later, performs the same
transition. -/
theorem tick_auto_advance_witness :
    tick runningExample 500000 =
      { runningExample with
        mode := tickSuccessor runningExample, isRunning := false,
        targetTs := none,
        secondsLeft :=
          durationForMode runningExample (tickSuccessor runningExample),
        rounds :=
          if runningExample.mode = Mode.focus then runningExample.rounds + 1
          else runningExample.rounds } ∧
    tick (startPomo defaultPomoState 1000)
        (1000 + durationForMode defaultPomoState defaultPomoState.mode * 1000) =
      { defaultPomoState with
        mode := tickSuccessor defaultPomoState, isRunning := false,
        targetTs := none,
        secondsLeft :=
          durationForMode defaultPomoState (tickSuccessor defaultPomoState),
        rounds :=
          if defaultPomoState.mode = Mode.focus then defaultPomoState.rounds + 1
          else defaultPomoState.rounds } :=
  ⟨tick_auto_advance.1 runningExample 100000 500000 rfl rfl (by decide)
      (by decide),
   tick_auto_advance.2 defaultPomoState 1000 (by decide) (by decide) rfl⟩

/-- A concrete item with one Done task and one Not Started task. -/
def itemTwoTasks : Item :=
  { id := "i1", type := "exam", name := "BGS", colorIdx := 0,
    dueDate := "2024-06-01",
    tasks :=
      [ { id := "t1", date := "2024-05-01", topic := "ch1", status := "Done" },
        { id := "t2", date := "2024-05-02", topic := "ch2",
          status := "Not Started" } ] }

/-- A concrete item whose single task is Done. -/
def itemAllDone : Item :=
  { id := "i2", type := "project", name := "Omni Iteration", colorIdx := 2,
    dueDate := "2024-06-01",
    tasks :=
      [ { id := "t3", date := "2024-05-01", topic := "draft",
          status := "Done" } ] }

/-- A concrete item with no tasks. -/
def itemNoTasks : Item :=
  { id := "i3", type := "daily", name := "Daily To-Dos", colorIdx := 3,
    dueDate := "2024-06-01", tasks := [] }

/-- C2: progressFor returns 0 for an empty task list, 100 when every task is
Done, and in general JS Math.round of 100·done/total (an exact rational
rounding, proved against the integer computation); the result is an integer
in [0, 100]. -/
theorem progressFor_spec (m : Item) :
    (m.tasks.length = 0 → progressFor m = 0) ∧
    (m.tasks.length ≠ 0 → (∀ t ∈ m.tasks, t.status = "Done") →
      progressFor m = 100) ∧
    (m.tasks.length ≠ 0 →
      (progressFor m : ℤ) =
        jsRoundQ (100 * (doneCount m : ℚ) / (m.tasks.length : ℚ))) ∧
    progressFor m ≤ 100 := by
  have hdt : doneCount m ≤ m.tasks.length := List.length_filter_le _ _
  refine ⟨?_, ?_, ?_, ?_⟩
  · intro h
    simp [progressFor, h]
  · intro ht hall
    have hfe : m.tasks.filter (fun x => x.status == "Done") = m.tasks :=
      List.filter_eq_self.mpr fun a ha => by
        rw [hall a ha]
        rfl
    have hdeq : doneCount m = m.tasks.length := by
      rw [doneCount, hfe]
    have ht0 : 0 < m.tasks.length := Nat.pos_of_ne_zero ht
    simp only [progressFor, if_neg ht, hdeq]
    rw [show 200 * m.tasks.length + m.tasks.length =
        2 * m.tasks.length * 100 + m.tasks.length by ring,
      Nat.mul_add_div (by omega), Nat.div_eq_of_lt (by omega)]
  · intro ht
    have ht0 : 0 < m.tasks.length := Nat.pos_of_ne_zero ht
    have htq : (0 : ℚ) < (m.tasks.length : ℚ) := by exact_mod_cast ht0
    have key : 100 * (doneCount m : ℚ) / (m.tasks.length : ℚ) + 1 / 2 =
        ((200 * doneCount m + m.tasks.length : ℕ) : ℚ) /
          ((2 * m.tasks.length : ℕ) : ℚ) := by
      push_cast
      field_simp
      ring
    have h0 : (0 : ℚ) ≤ ((200 * doneCount m + m.tasks.length : ℕ) : ℚ) /
        ((2 * m.tasks.length : ℕ) : ℚ) := by positivity
    simp only [progressFor, if_neg ht, jsRoundQ]
    rw [key, ← Int.natCast_floor_eq_floor h0, Nat.floor_div_eq_div]
  · by_cases h : m.tasks.length = 0
    · simp [progressFor, h]
    · have ht0 : 0 < m.tasks.length := Nat.pos_of_ne_zero h
      simp only [progressFor, if_neg h]
      have hlt : 200 * doneCount m + m.tasks.length <
          101 * (2 * m.tasks.length) := by omega
      exact Nat.lt_succ_iff.mp
        ((Nat.div_lt_iff_lt_mul (by omega)).mpr (by omega))

/-- Witness for C2: an item with one Done task out of two scores 50 (equal to
the exact rounding of 100·1/2), an all-Done singleton scores 100, and the
empty task list scores 0. -/
theorem progressFor_spec_witness :
    progressFor itemTwoTasks = 50 ∧
    ((progressFor itemTwoTasks : ℤ) =
      jsRoundQ (100 * (doneCount itemTwoTasks : ℚ) /
        (itemTwoTasks.tasks.length : ℚ))) ∧
    progressFor itemAllDone = 100 ∧
    progressFor itemNoTasks = 0 :=
  ⟨rfl,
   (progressFor_spec itemTwoTasks).2.2.1 (by decide),
   (progressFor_spec itemAllDone).2.1 (by decide) (by decide),
   (progressFor_spec itemNoTasks).1 rfl⟩

/-- A concrete uuid supply standing in for `crypto.randomUUID()`. -/
def exampleFresh : Nat → String := fun k => "uuid-" ++ toString k

/-- A concrete date formatter standing in for `fmtYMD(today + offset)`. -/
def exampleDate : Int → String := fun k => "day+" ++ toString k

/-- C7: in remote mode, every load whose HTTP request fails (network error or
any non-2xx response) yields the locally seeded default snapshot together
with a sync-status string containing the extracted error message; since
loadRemote is a total function into a plain pair, the failure never
propagates as an exception to the caller. -/
theorem loadRemote_failure (fresh : Nat → String) (d : Int → String)
    (today : String) (o : ApiOutcome) (h : apiFails o = true) :
    loadRemote fresh d today o =
      (defaultItems fresh d, "Sync error: " ++ apiErrMsg o) ∧
    ∃ pre suf, (loadRemote fresh d today o).2 = pre ++ apiErrMsg o ++ suf := by
  have hmain : loadRemote fresh d today o =
      (defaultItems fresh d, "Sync error: " ++ apiErrMsg o) := by
    cases o with
    | netError m => rfl
    | resp ok st isJson errF msgF arr =>
      cases ok
      · rfl
      · simp [apiFails] at h
  refine ⟨hmain, "Sync error: ", "", ?_⟩
  rw [hmain, String.append_empty]

/-- The fetch outcome of the 401 scenario: a non-ok JSON response whose body
carries `error: "Unauthorized"`. -/
def outcome401 : ApiOutcome := .resp false 401 true (some "Unauthorized") none none

/-- Witness for C7: the 401 response with a JSON error body produces the
default snapshot and the status "Sync error: Unauthorized". -/
theorem loadRemote_failure_witness :
    loadRemote exampleFresh exampleDate "2024-01-01" outcome401 =
      (defaultItems exampleFresh exampleDate,
        "Sync error: " ++ apiErrMsg outcome401) ∧
    apiErrMsg outcome401 = "Unauthorized" :=
  ⟨(loadRemote_failure exampleFresh exampleDate "2024-01-01" outcome401
      rfl).1,
   rfl⟩

/-- C8 counterexample: in local mode, corrupt (unparseable) stored data does
NOT yield a default snapshot — with stored string "not-json" on which
JSON.parse fails, load propagates the parse failure instead of returning the
seeded defaults. -/
theorem loadLocal_corrupt_counterexample :
    loadLocal (some "not-json") (fun _ => none) exampleFresh exampleDate ≠
      Except.ok (defaultItems exampleFresh exampleDate) := by
  simp [loadLocal]

/-- C8 (amended): in local mode, load() for a username with no stored data
(or an empty stored string, which JS treats as falsy) returns the seeded
default item set rather than an error; corrupt (unparseable) stored data,
however, makes load fail with the JSON.parse exception instead of yielding a
default snapshot. -/
theorem loadLocal_spec (parse : String → Option (List Item))
    (fresh : Nat → String) (d : Int → String) (s : String)
    (hne : s ≠ "") (hbad : parse s = none) :
    loadLocal none parse fresh d = Except.ok (defaultItems fresh d) ∧
    loadLocal (some "") parse fresh d = Except.ok (defaultItems fresh d) ∧
    loadLocal (some s) parse fresh d = Except.error "JSON.parse threw" := by
  refine ⟨rfl, rfl, ?_⟩
  simp [loadLocal, hne, hbad]

/-- Witness for C8 at the never-seen username (no stored data) and at the
concrete corrupt stored string "corrupt". -/
theorem loadLocal_spec_witness :
    loadLocal none (fun _ => none) exampleFresh exampleDate =
      Except.ok (defaultItems exampleFresh exampleDate) ∧
    loadLocal (some "corrupt") (fun _ => none) exampleFresh exampleDate =
      Except.error "JSON.parse threw" :=
  ⟨(loadLocal_spec (fun _ => none) exampleFresh exampleDate "corrupt"
      (by decide) rfl).1,
   (loadLocal_spec (fun _ => none) exampleFresh exampleDate "corrupt"
      (by decide) rfl).2.2⟩

/-- Mapping a function pointwise satisfying P yields Forall₂ P. -/
theorem forall₂_map_self {α : Type} {P : α → α → Prop} (f : α → α)
    (l : List α) (h : ∀ x ∈ l, P x (f x)) : List.Forall₂ P l (l.map f) := by
  rw [List.forall₂_map_right_iff]
  exact List.forall₂_same.mpr h

/-- Frame condition on one item: the id is preserved, and an item whose id
differs from the targeted one is completely unchanged. -/
def itemUntouched (itemId : String) (o n : Item) : Prop :=
  n.id = o.id ∧ (o.id ≠ itemId → n = o)

/-- All originally present tasks are kept unchanged, in place (the shape
left by addTask, which at most appends). -/
def tasksPrefixKept (o n : Item) : Prop :=
  o.tasks.length ≤ n.tasks.length ∧
  ∀ j (hj : j < o.tasks.length) (hj2 : j < n.tasks.length),
    n.tasks.get ⟨j, hj2⟩ = o.tasks.get ⟨j, hj⟩

/-- The task list is either untouched or exactly the filter dropping the
targeted task id (the shape left by removeTask); in both cases every
untargeted task is kept unchanged. -/
def tasksRemoveShape (taskId : String) (o n : Item) : Prop :=
  n.tasks = o.tasks ∨ n.tasks = o.tasks.filter (fun t => t.id != taskId)

/-- Task count and every task id are preserved, and every untargeted task is
completely unchanged (the shape left by setTaskStatus/cycleTaskStatus). -/
def tasksStatusOnly (taskId : String) (o n : Item) : Prop :=
  n.tasks.length = o.tasks.length ∧
  ∀ j (hj : j < o.tasks.length) (hj2 : j < n.tasks.length),
    (n.tasks.get ⟨j, hj2⟩).id = (o.tasks.get ⟨j, hj⟩).id ∧
    ((o.tasks.get ⟨j, hj⟩).id ≠ taskId →
      n.tasks.get ⟨j, hj2⟩ = o.tasks.get ⟨j, hj⟩)

/-- C10: each of addTask, removeTask, setTaskStatus and cycleTaskStatus
preserves the number and order of items, never changes any item id, leaves
every item whose id differs from the targeted one completely unchanged, and
never changes the id (or, except for the targeted task, any field) of an
untargeted task. -/
theorem taskOps_frame (today uuid nextSt itemId taskId : String)
    (items : List Item) :
    List.Forall₂ (fun o n => itemUntouched itemId o n ∧ tasksPrefixKept o n)
      items (addTask today uuid itemId items) ∧
    List.Forall₂
      (fun o n => itemUntouched itemId o n ∧ tasksRemoveShape taskId o n)
      items (removeTask itemId taskId items) ∧
    List.Forall₂
      (fun o n => itemUntouched itemId o n ∧ tasksStatusOnly taskId o n)
      items (setTaskStatus itemId taskId nextSt items) ∧
    List.Forall₂
      (fun o n => itemUntouched itemId o n ∧ tasksStatusOnly taskId o n)
      items (cycleTaskStatus itemId taskId items) := by
  refine ⟨?_, ?_, ?_, ?_⟩
  · apply forall₂_map_self
    intro x _
    by_cases hid : x.id = itemId
    · rw [if_pos hid]
      refine ⟨⟨rfl, fun hne => absurd hid hne⟩, ?_, ?_⟩
      · simp only [List.length_append, List.length_cons, List.length_nil]
        omega
      · intro j hj hj2
        simp only [List.get_eq_getElem]
        exact List.getElem_append_left hj
    · rw [if_neg hid]
      exact ⟨⟨rfl, fun _ => rfl⟩, le_refl _, fun j hj hj2 => rfl⟩
  · apply forall₂_map_self
    intro x _
    by_cases hid : x.id = itemId
    · rw [if_pos hid]
      exact ⟨⟨rfl, fun hne => absurd hid hne⟩, Or.inr rfl⟩
    · rw [if_neg hid]
      exact ⟨⟨rfl, fun _ => rfl⟩, Or.inl rfl⟩
  · apply forall₂_map_self
    intro x _
    by_cases hid : x.id = itemId
    · rw [if_pos hid]
      refine ⟨⟨rfl, fun hne => absurd hid hne⟩, by simp, ?_⟩
      intro j hj hj2
      constructor
      · simp only [List.get_eq_getElem, List.getElem_map]
        split <;> rfl
      · intro hnt
        simp only [List.get_eq_getElem, List.getElem_map] at hnt ⊢
        rw [if_neg hnt]
    · rw [if_neg hid]
      exact ⟨⟨rfl, fun _ => rfl⟩, rfl, fun j hj hj2 => ⟨rfl, fun _ => rfl⟩⟩
  · apply forall₂_map_self
    intro x _
    by_cases hid : x.id = itemId
    · rw [if_pos hid]
      refine ⟨⟨rfl, fun hne => absurd hid hne⟩, by simp, ?_⟩
      intro j hj hj2
      constructor
      · simp only [List.get_eq_getElem, List.getElem_map]
        split <;> rfl
      · intro hnt
        simp only [List.get_eq_getElem, List.getElem_map] at hnt ⊢
        rw [if_neg hnt]
    · rw [if_neg hid]
      exact ⟨⟨rfl, fun _ => rfl⟩, rfl, fun j hj hj2 => ⟨rfl, fun _ => rfl⟩⟩

/-- Witness for C10 on a concrete two-item list, targeting item "i1" and
task "t1". -/
theorem taskOps_frame_witness :
    List.Forall₂ (fun o n => itemUntouched "i1" o n ∧ tasksPrefixKept o n)
      [itemTwoTasks, itemAllDone]
      (addTask "2024-05-03" "t9" "i1" [itemTwoTasks, itemAllDone]) ∧
    List.Forall₂
      (fun o n => itemUntouched "i1" o n ∧ tasksRemoveShape "t1" o n)
      [itemTwoTasks, itemAllDone]
      (removeTask "i1" "t1" [itemTwoTasks, itemAllDone]) ∧
    List.Forall₂
      (fun o n => itemUntouched "i1" o n ∧ tasksStatusOnly "t1" o n)
      [itemTwoTasks, itemAllDone]
      (setTaskStatus "i1" "t1" "Done" [itemTwoTasks, itemAllDone]) ∧
    List.Forall₂
      (fun o n => itemUntouched "i1" o n ∧ tasksStatusOnly "t1" o n)
      [itemTwoTasks, itemAllDone]
      (cycleTaskStatus "i1" "t1" [itemTwoTasks, itemAllDone]) :=
  taskOps_frame "2024-05-03" "t9" "Done" "i1" "t1" [itemTwoTasks, itemAllDone]

end StudyPlanner
